import Mathlib

/-!
A shallow embedding of `upi-transaction-library.js` (the Bladeupi UPI
transaction library): the frozen code tables, the lookup functions
`getCodeInfo` and `getDisputeInfo`, the simulation helpers
`simulateTransaction` and `simulateMandateRegistration`, and the
edge-case helper `handleEdgeCase`, together with theorems settling the
behavioural claims about them.

Modelling conventions:
* JS strings are Lean `String`s; `toUpperCase`/`toLowerCase` are
  `String.toUpper`/`String.toLower` (ASCII case mapping, which covers the
  whole alphabet of the code tables).
* The frozen object literals are association lists in source order;
  property access `obj[key]` is `assocLookup`.
* `Object.keys` enumeration order (integer-like keys first, ascending,
  then the rest in insertion order) is `objectKeys`.
* `Math.random()` draws are explicit rational parameters in `[0, 1)`.
* `throw` is `Except.error`.
-/

/-- JS `UPIStatus.SUCCESS`. -/
def UPIStatus.SUCCESS : String := "Processed"

/-- JS `UPIStatus.PENDING`. -/
def UPIStatus.PENDING : String := "Pending"

/-- JS `UPIStatus.REJECTED`. -/
def UPIStatus.REJECTED : String := "Rejected"

/-- JS `Object.values(UPITransactionType)`, in insertion order:
PAY, COLLECT, INTENT, AUTOPAY, LITE, ASBA. -/
def UPITransactionTypeValues : List String :=
  ["Pay Request (Push)", "Collect Request (Pull)", "UPI Intent-Based Payment",
   "UPI Autopay", "UPI Lite", "UPI for ASBA"]

/-- JS `s.toUpperCase()` over the ASCII alphabet of the code tables,
written as a char-list map so that the kernel can evaluate it on
literals. -/
def jsToUpper (s : String) : String := ⟨s.data.map Char.toUpper⟩

/-- JS `s.toLowerCase()` over the same alphabet. -/
def jsToLower (s : String) : String := ⟨s.data.map Char.toLower⟩

set_option maxHeartbeats 1600000
set_option maxRecDepth 100000

/-- One value of the general/mandate tables: `[description, type, status, handling]`. -/
structure CodeEntry where
  description : String
  type : String
  status : String
  handling : String
deriving DecidableEq

/-- One value of the dispute table: `[description, disputeType, tat, flag]`. -/
structure DisputeEntry where
  description : String
  disputeType : String
  tat : String
  flag : String
deriving DecidableEq

def UPIErrorCodes : List (String × CodeEntry) := [
  ("00", ⟨"Approved or completed successfully", "Success", UPIStatus.SUCCESS, "No action needed."⟩),
  ("000", ⟨"Success (alternate)", "Success", UPIStatus.SUCCESS, "Same as 00."⟩),
  ("01", ⟨"Unable to process reversal / Account closed", "Business", UPIStatus.REJECTED, "Reinitiate with same CRN; e.g., closed account in mandate presentation."⟩),
  ("02", ⟨"No such account", "Business", UPIStatus.REJECTED, "Invalid beneficiary; recheck details."⟩),
  ("03", ⟨"Merchant VPA not found", "Technical", UPIStatus.REJECTED, "Invalid merchant; reinitiate."⟩),
  ("04", ⟨"Technical decline / Balance insufficient", "Business/Technical", UPIStatus.REJECTED, "Insufficient funds; top up account."⟩),
  ("05", ⟨"Technical failure (unauthorized request) / Not arranged for", "Business/Technical", UPIStatus.REJECTED, "Unauthorized or arrangement missing; reinitiate."⟩),
  ("091", ⟨"Timeout", "Technical", UPIStatus.PENDING, "Wait; do not reinitiate."⟩),
  ("10", ⟨"PIN block error", "Technical", UPIStatus.REJECTED, "Invalid PIN; retry."⟩),
  ("100", ⟨"PI (basic) attributes of demographic data did not match", "Business", UPIStatus.REJECTED, "Aadhaar mismatch; verify details."⟩),
  ("12", ⟨"Invalid transaction", "Technical", UPIStatus.REJECTED, "Format/issue; reinitiate."⟩),
  ("125", ⟨"Transaction limit crossed", "Business", UPIStatus.REJECTED, "Exceeds daily limit; wait or split."⟩),
  ("13", ⟨"Invalid amount field", "Technical", UPIStatus.REJECTED, "Amount error; correct and retry."⟩),
  ("14", ⟨"Invalid card number", "Technical", UPIStatus.REJECTED, "Wrong card; re-enter."⟩),
  ("15", ⟨"Issuer not live on UPI", "Technical", UPIStatus.REJECTED, "Bank not UPI-enabled; switch bank."⟩),
  ("17", ⟨"Customer cancellation", "Business", UPIStatus.REJECTED, "User canceled; reinitiate if needed."⟩),
  ("20", ⟨"Invalid response code", "Technical", UPIStatus.REJECTED, "System error; retry."⟩),
  ("200", ⟨"PA (address) attributes of demographic data did not match", "Business", UPIStatus.REJECTED, "Address mismatch; update."⟩),
  ("21", ⟨"No action taken", "Technical", UPIStatus.REJECTED, "System decline; retry."⟩),
  ("22", ⟨"Suspected malfunction", "Technical", UPIStatus.REJECTED, "Device/issue; try another app."⟩),
  ("30", ⟨"Invalid message format", "Technical", UPIStatus.REJECTED, "XML/format error; system fix."⟩),
  ("300", ⟨"Biometric data did not match", "Business", UPIStatus.REJECTED, "Fingerprint/iris fail; retry."⟩),
  ("303", ⟨"Duplicate transaction ID", "Technical", UPIStatus.REJECTED, "Already processed; check status."⟩),
  ("310", ⟨"Duplicate fingers used", "Technical", UPIStatus.REJECTED, "Biometric duplicate; use different."⟩),
  ("311", ⟨"Duplicate irises used", "Technical", UPIStatus.REJECTED, "Same as above."⟩),
  ("312", ⟨"FMR and FIR cannot be used in same transaction", "Technical", UPIStatus.REJECTED, "Biometric rule violation."⟩),
  ("313", ⟨"Single FIR record contains more than one finger", "Technical", UPIStatus.REJECTED, "Format error in biometrics."⟩),
  ("314", ⟨"Number of FMR/FIR should not exceed 10", "Technical", UPIStatus.REJECTED, "Too many biometrics."⟩),
  ("315", ⟨"Number of IIR should not exceed 2", "Technical", UPIStatus.REJECTED, "Iris limit exceeded."⟩),
  ("34", ⟨"Suspected fraud", "Business", UPIStatus.REJECTED, "Risk score high; contact bank."⟩),
  ("36", ⟨"Restricted card", "Business", UPIStatus.REJECTED, "Card blocked; use another."⟩),
  ("40", ⟨"Invalid debit account", "Technical", UPIStatus.REJECTED, "Wrong account; select correct."⟩),
  ("400", ⟨"OTP validation failed", "Business", UPIStatus.REJECTED, "Wrong OTP; regenerate."⟩),
  ("401", ⟨"Unauthorized request", "Technical", UPIStatus.REJECTED, "Auth fail; login again."⟩),
  ("404", ⟨"Record not available", "Technical", UPIStatus.REJECTED, "No data; check inputs."⟩),
  ("43", ⟨"Lost or stolen account/card", "Business", UPIStatus.REJECTED, "Security block; report to bank."⟩),
  ("444", ⟨"Checksum error", "Technical", UPIStatus.REJECTED, "Data integrity issue; retry."⟩),
  ("500", ⟨"Internal server error / Invalid encryption", "Technical", UPIStatus.REJECTED, "Server down; wait and retry."⟩),
  ("510", ⟨"Invalid XML format", "Technical", UPIStatus.REJECTED, "Message format error."⟩),
  ("AM", ⟨"MPIN not set by customer", "Business", UPIStatus.REJECTED, "Set PIN first."⟩),
  ("B1", ⟨"Registered mobile number changed/removed", "Business", UPIStatus.REJECTED, "Update mobile with bank."⟩),
  ("B3", ⟨"Transaction not permitted to account (e.g., minor, NRE)", "Business", UPIStatus.REJECTED, "Account restriction."⟩),
  ("CA", ⟨"Compliance error code for acquirer", "Business", UPIStatus.REJECTED, "Regulatory issue at merchant."⟩),
  ("CI", ⟨"Compliance error code for issuer", "Business", UPIStatus.REJECTED, "Regulatory issue at bank."⟩),
  ("DF", ⟨"Duplicate RRN found (beneficiary)", "Technical", UPIStatus.REJECTED, "Duplicate txn; check history."⟩),
  ("DT", ⟨"Duplicate RRN found (remitter)", "Technical", UPIStatus.REJECTED, "Same as above."⟩),
  ("K1", ⟨"Suspected fraud / Declined based on risk score (remitter)", "Business", UPIStatus.REJECTED, "Fraud detection."⟩),
  ("NO", ⟨"No original request found during debit/credit", "Technical", UPIStatus.REJECTED, "Missing prior txn."⟩),
  ("PS", ⟨"Maximum balance exceeded (beneficiary bank)", "Business", UPIStatus.REJECTED, "Account full; withdraw first."⟩),
  ("U13", ⟨"ACK not received or invalid", "Technical", UPIStatus.REJECTED, "Comms error (older code; now split)."⟩),
  ("U16", ⟨"Exceeded NPCI/bank limit", "Business", UPIStatus.REJECTED, "Limit hit; wait 24 hours."⟩),
  ("U3", ⟨"Biometric data did not match (alternate)", "Business", UPIStatus.REJECTED, "Auth fail."⟩),
  ("U30", ⟨"Generic failure (e.g., payer decline)", "Business", UPIStatus.REJECTED, "User declined collect."⟩),
  ("U4", ⟨"Invalid encryption", "Technical", UPIStatus.REJECTED, "Security issue."⟩),
  ("U5", ⟨"Invalid XML format (alternate)", "Technical", UPIStatus.REJECTED, "Format error."⟩),
  ("X6", ⟨"Invalid merchant (acquirer)", "Business", UPIStatus.REJECTED, "Merchant invalid."⟩),
  ("X7", ⟨"Merchant not reachable (acquirer)", "Technical", UPIStatus.REJECTED, "Connectivity issue."⟩),
  ("XB", ⟨"Invalid transaction (remitter, no appropriate code)", "Technical", UPIStatus.REJECTED, "Catch-all remitter error."⟩),
  ("XC", ⟨"Invalid transaction (beneficiary, no appropriate code)", "Technical", UPIStatus.REJECTED, "Catch-all beneficiary error."⟩),
  ("XD", ⟨"Invalid amount (remitter)", "Technical", UPIStatus.REJECTED, "Amount error sender side."⟩),
  ("XE", ⟨"Invalid amount (beneficiary)", "Technical", UPIStatus.REJECTED, "Amount error receiver side."⟩),
  ("XF", ⟨"Format error (remitter)", "Technical", UPIStatus.REJECTED, "Invalid format sender."⟩),
  ("XG", ⟨"Format error (beneficiary)", "Technical", UPIStatus.REJECTED, "Invalid format receiver."⟩),
  ("XH", ⟨"Account does not exist (remitter)", "Business", UPIStatus.REJECTED, "Sender account invalid."⟩),
  ("XI", ⟨"Account does not exist (beneficiary)", "Business", UPIStatus.REJECTED, "Receiver account invalid."⟩),
  ("XJ", ⟨"Requested function not supported (remitter)", "Technical", UPIStatus.REJECTED, "Feature unavailable sender."⟩),
  ("XK", ⟨"Requested function not supported (beneficiary)", "Technical", UPIStatus.REJECTED, "Feature unavailable receiver."⟩),
  ("XL", ⟨"Expired card (remitter)", "Business", UPIStatus.REJECTED, "Card expired."⟩),
  ("XM", ⟨"Expired card (beneficiary)", "Business", UPIStatus.REJECTED, "Same."⟩),
  ("XN", ⟨"No card record (remitter)", "Technical", UPIStatus.REJECTED, "No card data."⟩),
  ("XO", ⟨"No card record (beneficiary)", "Technical", UPIStatus.REJECTED, "Same."⟩),
  ("XP", ⟨"Transaction not permitted to cardholder (remitter)", "Business", UPIStatus.REJECTED, "Permission denied."⟩),
  ("XQ", ⟨"Transaction not permitted to cardholder (beneficiary)", "Business", UPIStatus.REJECTED, "Same."⟩),
  ("XR", ⟨"Restricted card (remitter)", "Business", UPIStatus.REJECTED, "Restricted."⟩),
  ("XS", ⟨"Restricted card (beneficiary)", "Business", UPIStatus.REJECTED, "Same."⟩),
  ("XT", ⟨"Cut-off in process (remitter)", "Technical", UPIStatus.REJECTED, "Maintenance window."⟩),
  ("XU", ⟨"Cut-off in process (beneficiary)", "Technical", UPIStatus.REJECTED, "Same."⟩),
  ("XV", ⟨"Compliance violation (remitter)", "Business", UPIStatus.REJECTED, "Regulatory block."⟩),
  ("XW", ⟨"Compliance violation (beneficiary)", "Business", UPIStatus.REJECTED, "Same."⟩),
  ("XY", ⟨"Remitter CBS offline", "Technical", UPIStatus.REJECTED, "Sender bank down."⟩),
  ("Y1", ⟨"Beneficiary CBS offline", "Technical", UPIStatus.REJECTED, "Receiver bank down."⟩),
  ("YA", ⟨"Lost or stolen card (remitter)", "Business", UPIStatus.REJECTED, "Security."⟩),
  ("YB", ⟨"Lost or stolen card (beneficiary)", "Business", UPIStatus.REJECTED, "Same."⟩),
  ("YC", ⟨"Do not honour (remitter)", "Business", UPIStatus.REJECTED, "Bank decline."⟩),
  ("YD", ⟨"Do not honour (beneficiary)", "Business", UPIStatus.REJECTED, "Same."⟩)]

def MandateErrorCodes : List (String × CodeEntry) := [
  ("AP01", ⟨"Account blocked", "Business", UPIStatus.REJECTED, "Account is blocked; contact bank."⟩),
  ("AP02", ⟨"Account closed", "Business", UPIStatus.REJECTED, "Account is closed; use another account."⟩),
  ("AP03", ⟨"Account frozen", "Business", UPIStatus.REJECTED, "Account frozen; contact bank."⟩),
  ("AP04", ⟨"Account inoperative", "Business", UPIStatus.REJECTED, "Account dormant; activate with bank."⟩),
  ("AP05", ⟨"No such account", "Business", UPIStatus.REJECTED, "Invalid account; check details."⟩),
  ("AP06", ⟨"Not a CBS account no. or old account no. represented with CBS no", "Business", UPIStatus.REJECTED, "Invalid account format; update to CBS."⟩),
  ("AP07", ⟨"Refer to the branch – KYC not completed", "Business", UPIStatus.REJECTED, "Complete KYC at branch."⟩),
  ("AP08", ⟨"Account holder name mismatch with CBS", "Business", UPIStatus.REJECTED, "Name mismatch; verify details."⟩),
  ("AP09", ⟨"Account type in mandate is different from CBS", "Business", UPIStatus.REJECTED, "Account type mismatch; correct it."⟩),
  ("AP10", ⟨"Amount exceeds e-mandate limit", "Business", UPIStatus.REJECTED, "Exceeds limit; reduce amount."⟩),
  ("AP11", ⟨"Authentication failed", "Technical", UPIStatus.REJECTED, "Auth failed; retry authentication."⟩),
  ("AP12", ⟨"Amount of EMI more than limit allowed for the account", "Business", UPIStatus.REJECTED, "EMI exceeds limit; adjust."⟩),
  ("AP13", ⟨"Invalid monthly EMI amount. Full loan amount mentioned", "Technical", UPIStatus.REJECTED, "Invalid EMI; specify correct amount."⟩),
  ("AP14", ⟨"Invalid user credentials", "Technical", UPIStatus.REJECTED, "Wrong credentials; re-enter."⟩),
  ("AP15", ⟨"Mandate not registered – not maintaining required balance", "Business", UPIStatus.REJECTED, "Insufficient balance for registration."⟩),
  ("AP16", ⟨"Mandate not registered – minor account", "Business", UPIStatus.REJECTED, "Minor account; not allowed."⟩),
  ("AP17", ⟨"Mandate not registered – NRE account", "Business", UPIStatus.REJECTED, "NRE account; not supported."⟩),
  ("AP18", ⟨"Mandate registration not allowed for CC account", "Business", UPIStatus.REJECTED, "Credit card account; use savings/current."⟩),
  ("AP19", ⟨"Mandate registration not allowed for PF account", "Business", UPIStatus.REJECTED, "PF account; not supported."⟩),
  ("AP20", ⟨"Mandate registration not allowed for PPF account", "Business", UPIStatus.REJECTED, "PPF account; not supported."⟩),
  ("AP21", ⟨"Payment stopped by attachment order", "Business", UPIStatus.REJECTED, "Stopped by order; contact bank."⟩),
  ("AP22", ⟨"Payment stopped by court order", "Business", UPIStatus.REJECTED, "Court order; resolve legally."⟩),
  ("AP23", ⟨"Transaction rejected or cancelled by the customer", "Business", UPIStatus.REJECTED, "Customer cancelled; reinitiate if needed."⟩),
  ("AP24", ⟨"Account not in regular status", "Business", UPIStatus.REJECTED, "Irregular account; regularize."⟩),
  ("AP25", ⟨"Withdrawal stopped owing to insolvency of account", "Business", UPIStatus.REJECTED, "Insolvency; contact bank."⟩),
  ("AP26", ⟨"Withdrawal stopped owing to lunacy of account holder", "Business", UPIStatus.REJECTED, "Legal issue; resolve."⟩),
  ("AP27", ⟨"Invalid frequency", "Technical", UPIStatus.REJECTED, "Wrong frequency; correct mandate."⟩),
  ("AP28", ⟨"Mandate registration failed – please contact your home branch", "Business", UPIStatus.REJECTED, "Contact branch for assistance."⟩),
  ("AP29", ⟨"Technical errors or connectivity issues at backend", "Technical", UPIStatus.REJECTED, "Backend issue; retry later."⟩),
  ("AP30", ⟨"Browser closed by customer mid-transaction", "Business", UPIStatus.REJECTED, "Transaction aborted; restart."⟩),
  ("AP31", ⟨"Mandate registration not allowed for joint account", "Business", UPIStatus.REJECTED, "Joint account; use individual."⟩),
  ("AP32", ⟨"Mandate registration not allowed for wallet account", "Business", UPIStatus.REJECTED, "Wallet; use bank account."⟩),
  ("AP33", ⟨"User rejected the transaction on pre-login page", "Business", UPIStatus.REJECTED, "User rejected; try again."⟩),
  ("AP34", ⟨"Account number not registered with netbanking facility", "Business", UPIStatus.REJECTED, "Enable netbanking."⟩),
  ("AP35", ⟨"Debit card validation failed – invalid card number", "Technical", UPIStatus.REJECTED, "Invalid card; check number."⟩),
  ("AP36", ⟨"Debit card validation failed – invalid expiry date", "Technical", UPIStatus.REJECTED, "Invalid expiry; check date."⟩),
  ("AP37", ⟨"Debit card validation failed – invalid PIN", "Technical", UPIStatus.REJECTED, "Wrong PIN; retry."⟩),
  ("AP38", ⟨"Debit card validation failed – invalid CVV", "Technical", UPIStatus.REJECTED, "Wrong CVV; check."⟩),
  ("AP39", ⟨"OTP invalid", "Technical", UPIStatus.REJECTED, "Invalid OTP; regenerate."⟩),
  ("AP40", ⟨"Maximum tries exceeded for OTP", "Technical", UPIStatus.REJECTED, "OTP tries exceeded; wait and retry."⟩),
  ("AP41", ⟨"Time expired for OTP", "Technical", UPIStatus.REJECTED, "OTP expired; regenerate."⟩),
  ("AP42", ⟨"Debit card not activated", "Business", UPIStatus.REJECTED, "Activate card."⟩),
  ("AP43", ⟨"Debit card blocked", "Business", UPIStatus.REJECTED, "Card blocked; unblock."⟩),
  ("AP44", ⟨"Debit card hotlisted", "Business", UPIStatus.REJECTED, "Card hotlisted; report lost."⟩),
  ("AP45", ⟨"Debit card expired", "Business", UPIStatus.REJECTED, "Card expired; renew."⟩),
  ("AP46", ⟨"No response received from customer during transaction", "Business", UPIStatus.REJECTED, "No response; retry transaction."⟩),
  ("AP47", ⟨"Account number registered for only view rights in netbanking", "Business", UPIStatus.REJECTED, "View-only; enable transactions."⟩),
  ("AP48", ⟨"Aadhaar number does not match with debtor", "Business", UPIStatus.REJECTED, "Aadhaar mismatch; verify."⟩),
  ("AP65", ⟨"Account number not linked with given debit card", "Business", UPIStatus.REJECTED, "Link account with debit card."⟩),
  ("AP66", ⟨"No response received from bank within prescribed time limit", "Technical", UPIStatus.REJECTED, "Bank timeout; retry later."⟩)]

def DisputeReasonCodes : List (String × DisputeEntry) := [
  ("U2", ⟨"Credit not Processed", "Chargeback", "T+5", "U2"⟩),
  ("U3", ⟨"Goods/Services not as described/defective", "Chargeback", "T+5", "U3"⟩),
  ("U4", ⟨"Duplicate Processing", "Chargeback", "T+5", "U4"⟩),
  ("U5", ⟨"Fraud", "Chargeback", "T+5", "U5"⟩),
  ("U6", ⟨"Payment not received", "Chargeback", "T+5", "U6"⟩),
  ("U7", ⟨"Incorrect Amount", "Chargeback", "T+5", "U7"⟩),
  ("U8", ⟨"Transaction Debited Twice", "Chargeback", "T+5", "U8"⟩),
  ("U9", ⟨"Paid by Alternate Means", "Chargeback", "T+5", "U9"⟩),
  ("U10", ⟨"Goods/Services not received", "Chargeback", "T+5", "U10"⟩),
  ("U11", ⟨"Other", "Chargeback", "T+5", "U11"⟩)]

/-- JS property access `obj[key]` on an object literal held as an
association list (the tables have no duplicate keys, so first match is
the JS semantics). -/
def assocLookup {α : Type} (k : String) : List (String × α) → Option α
  | [] => none
  | (k', v) :: rest => if k' = k then some v else assocLookup k rest

/-- The merged object `getCodeInfo` builds by spreading `UPIErrorCodes`
then `MandateErrorCodes`: the later spread wins on a key collision, so
lookup tries the mandate table first and falls back to the general
table. -/
def mergedCodes (k : String) : Option CodeEntry :=
  match assocLookup k MandateErrorCodes with
  | some v => some v
  | none => assocLookup k UPIErrorCodes

/-- The record `getCodeInfo` returns. -/
structure CodeRecord where
  code : String
  description : String
  type : String
  status : String
  handling : String
deriving DecidableEq

/-- JS `getCodeInfo(code)`: uppercase the input, look it up in the merged
table, and fall back to the Unknown/Technical/Rejected default. -/
def getCodeInfo (code : String) : CodeRecord :=
  match mergedCodes (jsToUpper code) with
  | some e => ⟨jsToUpper code, e.description, e.type, e.status, e.handling⟩
  | none => ⟨jsToUpper code, "Unknown", "Technical", UPIStatus.REJECTED, "Contact support"⟩

/-- The record `getDisputeInfo` returns. -/
structure DisputeRecord where
  code : String
  description : String
  disputeType : String
  tat : String
  flag : String
deriving DecidableEq

/-- JS `getDisputeInfo(code)`: uppercase the input, look it up in the
dispute table only, and fall back to the Unknown-Dispute default. -/
def getDisputeInfo (code : String) : DisputeRecord :=
  match assocLookup (jsToUpper code) DisputeReasonCodes with
  | some e => ⟨jsToUpper code, e.description, e.disputeType, e.tat, e.flag⟩
  | none => ⟨jsToUpper code, "Unknown Dispute", "Chargeback", "T+5", "Unknown"⟩

/-- Does the second char list occur at the head of the first? (helper for
JS `String.prototype.includes`). -/
def charsStartWith : List Char → List Char → Bool
  | _, [] => true
  | [], _ :: _ => false
  | c :: cs, d :: ds => c == d && charsStartWith cs ds

/-- Does the second char list occur contiguously in the first? -/
def charsInclude : List Char → List Char → Bool
  | [], sub => charsStartWith [] sub
  | c :: cs, sub => charsStartWith (c :: cs) sub || charsInclude cs sub

/-- JS `s.includes(sub)`: substring containment. -/
def strIncludes (s sub : String) : Bool := charsInclude s.data sub.data

/-- The record `handleEdgeCase` returns. -/
structure EdgeCaseResult where
  code : String
  suggestedAction : String
deriving DecidableEq

/-- JS `handleEdgeCase(code)`: resolve via `getCodeInfo`, then append a
suffix to the handling text by the if/else-if chain of the source. -/
def handleEdgeCase (code : String) : EdgeCaseResult :=
  let info := getCodeInfo code
  let suggestedAction :=
    if info.status == UPIStatus.PENDING then
      info.handling ++ " Monitor for resolution."
    else if strIncludes info.type "Technical" && info.status == UPIStatus.REJECTED then
      info.handling ++ " Retry after a short delay."
    else if strIncludes info.type "Business" then
      info.handling ++ " User intervention required; do not retry automatically."
    else
      info.handling
  ⟨info.code, suggestedAction⟩

/-- Numeric value of a digit string (helper for the JS array-index key
rule). -/
def digitsToNat (s : String) : Nat :=
  s.data.foldl (fun n c => n * 10 + (c.toNat - 48)) 0

/-- JS treats a property key as an array index when it is the canonical
decimal form of an integer below `2^32 - 1` (nonempty, all digits, no
leading zero unless it is "0"). -/
def isArrayIndexKey (s : String) : Bool :=
  match s.data with
  | [] => false
  | c :: cs => (c :: cs).all Char.isDigit && (s == "0" || c != '0')
      && digitsToNat s < 4294967295

/-- Insert into a list of digit strings, ascending by numeric value. -/
def insertByNat (x : String) : List String → List String
  | [] => [x]
  | y :: ys => if digitsToNat x ≤ digitsToNat y then x :: y :: ys else y :: insertByNat x ys

/-- Insertion sort of digit strings, ascending by numeric value. -/
def sortByNat (l : List String) : List String := l.foldr insertByNat []

/-- JS `Object.keys` enumeration order: array-index keys first in
ascending numeric order, then the remaining keys in insertion order. -/
def objectKeys {α : Type} (l : List (String × α)) : List String :=
  let ks := l.map Prod.fst
  sortByNat (ks.filter isArrayIndexKey) ++ ks.filter (fun k => !isArrayIndexKey k)

/-- The record `simulateTransaction` returns: the resolved code record
with the transaction type spread in front. -/
structure TxnRecord where
  transactionType : String
  code : String
  description : String
  type : String
  status : String
  handling : String
deriving DecidableEq

/-- JS `codes.filter(c => c !== "00" && c !== "000")` over
`Object.keys(UPIErrorCodes)`: the non-success general codes. -/
def failureCodes : List String :=
  (objectKeys UPIErrorCodes).filter (fun c => c != "00" && c != "000")

/-- JS `simulateTransaction(transactionType, successRate)`. The two
`Math.random()` draws are passed explicitly as `r1` (the success test)
and `r2` (the failure-code pick); both lie in `[0, 1)` when produced by
`Math.random()`, and an out-of-range pick index (impossible for draws in
`[0, 1)`) is modelled with `List.getD` and the empty-string default. -/
def simulateTransaction (transactionType : String) (successRate : ℚ)
    (r1 r2 : ℚ) : Except String TxnRecord :=
  if !(UPITransactionTypeValues.contains transactionType) then
    .error "Invalid transaction type"
  else
    let code :=
      if r1 < successRate then "00"
      else failureCodes.getD (⌊r2 * (failureCodes.length : ℚ)⌋).toNat ""
    let info := getCodeInfo code
    .ok ⟨transactionType, info.code, info.description, info.type, info.status, info.handling⟩

/-- JS `simulateMandateRegistration(successRate)`: same shape, drawing
failures from the whole mandate table, never throwing. -/
def simulateMandateRegistration (successRate r1 r2 : ℚ) : TxnRecord :=
  let codes := objectKeys MandateErrorCodes
  let code :=
    if r1 < successRate then "00"
    else codes.getD (⌊r2 * (codes.length : ℚ)⌋).toNat ""
  let info := getCodeInfo code
  ⟨"Mandate Registration", info.code, info.description, info.type, info.status, info.handling⟩


/-- The suffix `handleEdgeCase` appends, exactly as §4.3 of the spec
words it: a first-match precedence on (category, status). Stated
separately from `handleEdgeCase` so the code can be proved to refine
the spec's rule. -/
def specSuffix (category status : String) : String :=
  if status == UPIStatus.PENDING then " Monitor for resolution."
  else if strIncludes category "Technical" && status == UPIStatus.REJECTED then
    " Retry after a short delay."
  else if strIncludes category "Business" then
    " User intervention required; do not retry automatically."
  else ""

/-- Lookup misses every association list whose keys avoid `k`. -/
theorem assocLookup_eq_none {α : Type} (k : String) (l : List (String × α))
    (h : k ∉ l.map Prod.fst) : assocLookup k l = none := by
  induction l with
  | nil => rfl
  | cons p rest ih =>
    obtain ⟨k', v⟩ := p
    simp only [List.map_cons, List.mem_cons, not_or] at h
    have hne : ¬ (k' = k) := fun e => h.1 e.symm
    simp only [assocLookup, if_neg hne]
    exact ih h.2

/-- A successful lookup returns a binding of the list. -/
theorem assocLookup_mem {α : Type} {k : String} {l : List (String × α)} {v : α}
    (h : assocLookup k l = some v) : (k, v) ∈ l := by
  induction l with
  | nil => simp [assocLookup] at h
  | cons p rest ih =>
    obtain ⟨k', w⟩ := p
    by_cases hk : k' = k
    · subst hk
      simp [assocLookup] at h
      subst h
      exact List.mem_cons_self _ _
    · simp only [assocLookup, if_neg hk] at h
      exact List.mem_cons_of_mem _ (ih h)

/-- A hit in the merged table comes from one of the two tables. -/
theorem mergedCodes_some {k : String} {e : CodeEntry} (h : mergedCodes k = some e) :
    (k, e) ∈ MandateErrorCodes ∨ (k, e) ∈ UPIErrorCodes := by
  unfold mergedCodes at h
  cases hm : assocLookup k MandateErrorCodes with
  | some v =>
    rw [hm] at h
    simp only [Option.some.injEq] at h
    exact Or.inl (h ▸ assocLookup_mem hm)
  | none =>
    rw [hm] at h
    exact Or.inr (assocLookup_mem h)

/-- A code that is a key of neither table resolves to the default
record. -/
theorem getCodeInfo_not_found (s : String)
    (h1 : jsToUpper s ∉ UPIErrorCodes.map Prod.fst)
    (h2 : jsToUpper s ∉ MandateErrorCodes.map Prod.fst) :
    getCodeInfo s =
      ⟨jsToUpper s, "Unknown", "Technical", UPIStatus.REJECTED, "Contact support"⟩ := by
  unfold getCodeInfo mergedCodes
  rw [assocLookup_eq_none _ _ h2, assocLookup_eq_none _ _ h1]

/-- C1: for every input string whose uppercased form is a key of neither
the general-error table nor the mandate-error table, `getCodeInfo`
returns the default record — description "Unknown", category
"Technical", status Rejected, handling "Contact support" — with the
code field set to the uppercased input; the function is total, so no
error is signalled. -/
theorem upi_c1 (s : String)
    (h1 : jsToUpper s ∉ UPIErrorCodes.map Prod.fst)
    (h2 : jsToUpper s ∉ MandateErrorCodes.map Prod.fst) :
    getCodeInfo s =
      ⟨jsToUpper s, "Unknown", "Technical", UPIStatus.REJECTED, "Contact support"⟩ :=
  getCodeInfo_not_found s h1 h2

theorem upi_c1_witness :
    getCodeInfo "zz9" =
      ⟨"ZZ9", "Unknown", "Technical", UPIStatus.REJECTED, "Contact support"⟩ :=
  upi_c1 "zz9" (by decide) (by decide)

/-- C2: every key of the general-error table resolves to that table's
record, every key of the mandate-error table resolves to the mandate
record, the two key sets are disjoint (so the general table wins in the
only possible sense), and each table's keys are pairwise distinct. -/
theorem upi_c2 :
    (∀ p ∈ UPIErrorCodes, getCodeInfo p.1 =
      ⟨p.1, p.2.description, p.2.type, p.2.status, p.2.handling⟩)
    ∧ (∀ p ∈ MandateErrorCodes, getCodeInfo p.1 =
      ⟨p.1, p.2.description, p.2.type, p.2.status, p.2.handling⟩)
    ∧ (∀ k ∈ UPIErrorCodes.map Prod.fst, k ∉ MandateErrorCodes.map Prod.fst)
    ∧ (UPIErrorCodes.map Prod.fst).Nodup
    ∧ (MandateErrorCodes.map Prod.fst).Nodup := by
  refine ⟨?_, ?_, ?_, ?_, ?_⟩ <;> decide

theorem upi_c2_witness :
    getCodeInfo "03" =
      ⟨"03", "Merchant VPA not found", "Technical", UPIStatus.REJECTED,
        "Invalid merchant; reinitiate."⟩
    ∧ getCodeInfo "AP01" =
      ⟨"AP01", "Account blocked", "Business", UPIStatus.REJECTED,
        "Account is blocked; contact bank."⟩ :=
  ⟨upi_c2.1 ("03", ⟨"Merchant VPA not found", "Technical", UPIStatus.REJECTED,
      "Invalid merchant; reinitiate."⟩) (by decide),
   upi_c2.2.1 ("AP01", ⟨"Account blocked", "Business", UPIStatus.REJECTED,
      "Account is blocked; contact bank."⟩) (by decide)⟩

/-- C5: lookup is case-insensitive on the general-error table — each key
resolves to the same record as its lowercased form. -/
theorem upi_c5 : ∀ k ∈ UPIErrorCodes.map Prod.fst,
    getCodeInfo k = getCodeInfo (jsToLower k) := by decide

theorem upi_c5_witness : getCodeInfo "AM" = getCodeInfo (jsToLower "AM") :=
  upi_c5 "AM" (by decide)

/-- C7: `getDisputeInfo` resolves only against the dispute table and is
total: every dispute-table key returns that table's record, whose
disputeType is "Chargeback"; any input whose uppercased form is not a
dispute key returns the Unknown-Dispute default record. -/
theorem upi_c7 :
    (∀ p ∈ DisputeReasonCodes,
      getDisputeInfo p.1 = ⟨p.1, p.2.description, p.2.disputeType, p.2.tat, p.2.flag⟩
      ∧ p.2.disputeType = "Chargeback")
    ∧ (∀ s : String, jsToUpper s ∉ DisputeReasonCodes.map Prod.fst →
      getDisputeInfo s = ⟨jsToUpper s, "Unknown Dispute", "Chargeback", "T+5", "Unknown"⟩) := by
  constructor
  · decide
  · intro s h
    unfold getDisputeInfo
    rw [assocLookup_eq_none _ _ h]

theorem upi_c7_witness :
    getDisputeInfo "U2" = ⟨"U2", "Credit not Processed", "Chargeback", "T+5", "U2"⟩
    ∧ getDisputeInfo "91" = ⟨"91", "Unknown Dispute", "Chargeback", "T+5", "Unknown"⟩ :=
  ⟨(upi_c7.1 ("U2", ⟨"Credit not Processed", "Chargeback", "T+5", "U2"⟩) (by decide)).1,
   upi_c7.2 "91" (by decide)⟩

/-- The if/else-if chain of `handleEdgeCase` computes exactly the
spec's first-match suffix rule. -/
theorem edge_suffix (info : CodeRecord) :
    (if info.status == UPIStatus.PENDING then
        info.handling ++ " Monitor for resolution."
      else if strIncludes info.type "Technical" && info.status == UPIStatus.REJECTED then
        info.handling ++ " Retry after a short delay."
      else if strIncludes info.type "Business" then
        info.handling ++ " User intervention required; do not retry automatically."
      else info.handling)
    = info.handling ++ specSuffix info.type info.status := by
  unfold specSuffix
  by_cases h1 : (info.status == UPIStatus.PENDING) = true
  · simp [h1]
  · by_cases h2 : (strIncludes info.type "Technical" && info.status == UPIStatus.REJECTED) = true
    · simp [h1, h2]
    · by_cases h3 : (strIncludes info.type "Business") = true
      · simp [h1, h2, h3]
      · simp [h1, h2, h3]

/-- C3: `handleEdgeCase` appends exactly one suffix to the resolved
handling text, chosen by the spec's first-match precedence
(Pending → monitor; Technical-containing and Rejected → retry;
Business-containing → user intervention; otherwise nothing); a
"Business/Technical" Rejected code takes the retry branch, and
`handleEdgeCase "091"` takes the monitor branch. -/
theorem upi_c3 :
    (∀ c : String, handleEdgeCase c =
      ⟨(getCodeInfo c).code,
        (getCodeInfo c).handling ++ specSuffix (getCodeInfo c).type (getCodeInfo c).status⟩)
    ∧ (∀ c : String, (getCodeInfo c).type = "Business/Technical" →
        (getCodeInfo c).status = UPIStatus.REJECTED →
        (handleEdgeCase c).suggestedAction =
          (getCodeInfo c).handling ++ " Retry after a short delay.")
    ∧ (handleEdgeCase "091").suggestedAction =
        "Wait; do not reinitiate. Monitor for resolution." := by
  have hmain : ∀ c : String, handleEdgeCase c =
      ⟨(getCodeInfo c).code,
        (getCodeInfo c).handling ++ specSuffix (getCodeInfo c).type (getCodeInfo c).status⟩ := by
    intro c
    simp only [handleEdgeCase]
    rw [edge_suffix]
  refine ⟨hmain, ?_, ?_⟩
  · intro c h1 h2
    rw [hmain c]
    show (getCodeInfo c).handling ++ specSuffix (getCodeInfo c).type (getCodeInfo c).status = _
    have hbt : specSuffix "Business/Technical" UPIStatus.REJECTED =
        " Retry after a short delay." := by decide
    rw [h1, h2, hbt]
  · decide

theorem upi_c3_witness :
    (handleEdgeCase "04").suggestedAction =
      (getCodeInfo "04").handling ++ " Retry after a short delay." :=
  upi_c3.2.1 "04" (by decide) (by decide)

/-- C8: every record `getCodeInfo` returns has a non-empty description
and a status among the three enum values, and the two success codes
resolve to status Success. -/
theorem upi_c8 :
    (∀ s : String, (getCodeInfo s).description ≠ ""
      ∧ ((getCodeInfo s).status = UPIStatus.SUCCESS ∨ (getCodeInfo s).status = UPIStatus.PENDING
          ∨ (getCodeInfo s).status = UPIStatus.REJECTED))
    ∧ (getCodeInfo "00").status = UPIStatus.SUCCESS
    ∧ (getCodeInfo "000").status = UPIStatus.SUCCESS := by
  have htab : ∀ p ∈ UPIErrorCodes, p.2.description ≠ ""
      ∧ (p.2.status = UPIStatus.SUCCESS ∨ p.2.status = UPIStatus.PENDING
          ∨ p.2.status = UPIStatus.REJECTED) := by decide
  have hman : ∀ p ∈ MandateErrorCodes, p.2.description ≠ ""
      ∧ (p.2.status = UPIStatus.SUCCESS ∨ p.2.status = UPIStatus.PENDING
          ∨ p.2.status = UPIStatus.REJECTED) := by decide
  refine ⟨?_, by decide, by decide⟩
  intro s
  unfold getCodeInfo
  cases h : mergedCodes (jsToUpper s) with
  | some e =>
    rcases mergedCodes_some h with hm | hg
    · exact ⟨(hman _ hm).1, (hman _ hm).2⟩
    · exact ⟨(htab _ hg).1, (htab _ hg).2⟩
  | none =>
    refine ⟨?_, Or.inr (Or.inr rfl)⟩
    intro hcon
    replace hcon : "Unknown" = "" := hcon
    exact absurd hcon (by decide)

theorem upi_c8_witness :
    (getCodeInfo "091").status = UPIStatus.SUCCESS
    ∨ (getCodeInfo "091").status = UPIStatus.PENDING
    ∨ (getCodeInfo "091").status = UPIStatus.REJECTED :=
  (upi_c8.1 "091").2

/-- C9: `getCodeInfo` returns status Success exactly when the uppercased
input is "00" or "000"; every mandate entry is Rejected, and every other
general entry is Rejected or Pending. -/
theorem upi_c9 :
    (∀ s : String, (getCodeInfo s).status = UPIStatus.SUCCESS ↔
      (jsToUpper s = "00" ∨ jsToUpper s = "000"))
    ∧ (∀ p ∈ MandateErrorCodes, p.2.status = UPIStatus.REJECTED)
    ∧ (∀ p ∈ UPIErrorCodes, p.1 ≠ "00" → p.1 ≠ "000" →
        p.2.status = UPIStatus.REJECTED ∨ p.2.status = UPIStatus.PENDING) := by
  have hman : ∀ p ∈ MandateErrorCodes, p.2.status = UPIStatus.REJECTED := by decide
  have hkey : ∀ p ∈ UPIErrorCodes, p.2.status = UPIStatus.SUCCESS →
      p.1 = "00" ∨ p.1 = "000" := by decide
  refine ⟨?_, hman, by decide⟩
  intro s
  constructor
  · intro hst
    unfold getCodeInfo at hst
    cases h : mergedCodes (jsToUpper s) with
    | some e =>
      rw [h] at hst
      replace hst : e.status = UPIStatus.SUCCESS := hst
      rcases mergedCodes_some h with hm | hg
      · rw [hman _ hm] at hst
        exact absurd hst (by decide)
      · exact hkey _ hg hst
    | none =>
      rw [h] at hst
      replace hst : UPIStatus.REJECTED = UPIStatus.SUCCESS := hst
      exact absurd hst (by decide)
  · intro hk
    unfold getCodeInfo
    rcases hk with h0 | h0 <;> rw [h0] <;> decide

theorem upi_c9_witness : (getCodeInfo "000").status = UPIStatus.SUCCESS :=
  (upi_c9.1 "000").mpr (Or.inr (by decide))

/-- C10: an input whose uppercased form is a key of neither error table
resolves to the Unknown fallback (category "Technical", status
Rejected), which always takes the retry branch of `handleEdgeCase`:
the result carries the uppercased code and the suggested action
"Contact support Retry after a short delay.". -/
theorem upi_c10 (s : String)
    (h1 : jsToUpper s ∉ UPIErrorCodes.map Prod.fst)
    (h2 : jsToUpper s ∉ MandateErrorCodes.map Prod.fst) :
    handleEdgeCase s = ⟨jsToUpper s, "Contact support Retry after a short delay."⟩ := by
  have hc := getCodeInfo_not_found s h1 h2
  simp only [handleEdgeCase, hc]
  congr 1

theorem upi_c10_witness :
    handleEdgeCase "zq" = ⟨"ZQ", "Contact support Retry after a short delay."⟩ :=
  upi_c10 "zq" (by decide) (by decide)

/-- For a valid transaction type the simulation reaches the draw logic:
success code on `r1 < successRate`, otherwise the floor-indexed pick
from `failureCodes`. -/
theorem simulateTransaction_valid {tt : String} (hmem : tt ∈ UPITransactionTypeValues)
    (sr r1 r2 : ℚ) :
    simulateTransaction tt sr r1 r2 =
      .ok ⟨tt,
        (getCodeInfo (if r1 < sr then "00"
          else failureCodes.getD (⌊r2 * (failureCodes.length : ℚ)⌋).toNat "")).code,
        (getCodeInfo (if r1 < sr then "00"
          else failureCodes.getD (⌊r2 * (failureCodes.length : ℚ)⌋).toNat "")).description,
        (getCodeInfo (if r1 < sr then "00"
          else failureCodes.getD (⌊r2 * (failureCodes.length : ℚ)⌋).toNat "")).type,
        (getCodeInfo (if r1 < sr then "00"
          else failureCodes.getD (⌊r2 * (failureCodes.length : ℚ)⌋).toNat "")).status,
        (getCodeInfo (if r1 < sr then "00"
          else failureCodes.getD (⌊r2 * (failureCodes.length : ℚ)⌋).toNat "")).handling⟩ := by
  have hcon : UPITransactionTypeValues.contains tt = true := List.elem_iff.mpr hmem
  unfold simulateTransaction
  rw [hcon]
  rfl

/-- C4: `simulateTransaction` raises exactly on a transaction type
outside the six-value enumeration (the raised error is the
InvalidArgument message, and on a raise no record is produced because
the result is `.error`); on a valid type it returns a record; and the
three lookup operations are total functions of their string input, so
they never fail. -/
theorem upi_c4 (tt : String) (sr r1 r2 : ℚ) :
    ((∃ e, simulateTransaction tt sr r1 r2 = .error e) ↔ tt ∉ UPITransactionTypeValues)
    ∧ (tt ∉ UPITransactionTypeValues →
        simulateTransaction tt sr r1 r2 = .error "Invalid transaction type")
    ∧ (tt ∈ UPITransactionTypeValues → ∃ rec, simulateTransaction tt sr r1 r2 = .ok rec)
    ∧ (∃ r, getCodeInfo tt = r) ∧ (∃ d, getDisputeInfo tt = d)
    ∧ (∃ er, handleEdgeCase tt = er) := by
  by_cases hm : tt ∈ UPITransactionTypeValues
  · have hok : ∃ rec, simulateTransaction tt sr r1 r2 = .ok rec :=
      ⟨_, simulateTransaction_valid hm sr r1 r2⟩
    refine ⟨?_, fun hcontra => absurd hm hcontra, fun _ => hok, ⟨_, rfl⟩, ⟨_, rfl⟩, ⟨_, rfl⟩⟩
    constructor
    · rintro ⟨e, he⟩
      obtain ⟨rec, hrec⟩ := hok
      rw [hrec] at he
      cases he
    · intro hcontra
      exact absurd hm hcontra
  · have hcon : UPITransactionTypeValues.contains tt = false := by
      rw [Bool.eq_false_iff]
      exact fun hc => hm (List.elem_iff.mp hc)
    have herr : simulateTransaction tt sr r1 r2 = .error "Invalid transaction type" := by
      unfold simulateTransaction
      rw [hcon]
      rfl
    exact ⟨⟨fun _ => hm, fun _ => ⟨_, herr⟩⟩, fun _ => herr, fun hmem => absurd hmem hm,
      ⟨_, rfl⟩, ⟨_, rfl⟩, ⟨_, rfl⟩⟩

theorem upi_c4_witness :
    simulateTransaction "Teleport" 1 0 0 = .error "Invalid transaction type" :=
  (upi_c4 "Teleport" 1 0 0).2.1 (by decide)

/-- C6: with successRate 1 every draw in `[0, 1)` yields the success
record; with successRate 0 the success branch is unreachable and the
pick is the floor-indexed element of the non-success general codes,
resolved through `getCodeInfo`, whose status is never Success. -/
theorem upi_c6 :
    (∀ (tt : String) (r1 r2 : ℚ), tt ∈ UPITransactionTypeValues → 0 ≤ r1 → r1 < 1 →
      simulateTransaction tt 1 r1 r2 =
        .ok ⟨tt, "00", "Approved or completed successfully", "Success",
          UPIStatus.SUCCESS, "No action needed."⟩)
    ∧ (∀ (tt : String) (r1 r2 : ℚ), tt ∈ UPITransactionTypeValues →
        0 ≤ r1 → 0 ≤ r2 → r2 < 1 →
      ∃ i : ℕ, i < failureCodes.length ∧ i = (⌊r2 * (failureCodes.length : ℚ)⌋).toNat ∧
        simulateTransaction tt 0 r1 r2 =
          .ok ⟨tt, (getCodeInfo (failureCodes.getD i "")).code,
            (getCodeInfo (failureCodes.getD i "")).description,
            (getCodeInfo (failureCodes.getD i "")).type,
            (getCodeInfo (failureCodes.getD i "")).status,
            (getCodeInfo (failureCodes.getD i "")).handling⟩
        ∧ failureCodes.getD i "" ∈ failureCodes
        ∧ (getCodeInfo (failureCodes.getD i "")).status ≠ UPIStatus.SUCCESS) := by
  have h00 : getCodeInfo "00" = ⟨"00", "Approved or completed successfully", "Success",
      UPIStatus.SUCCESS, "No action needed."⟩ := by decide
  have hall : ∀ c ∈ failureCodes, (getCodeInfo c).status ≠ UPIStatus.SUCCESS := by decide
  have hlen : failureCodes.length = 83 := by decide
  constructor
  · intro tt r1 r2 hmem h0 h1
    rw [simulateTransaction_valid hmem 1 r1 r2]
    rw [if_pos h1, h00]
  · intro tt r1 r2 hmem h0 h2a h2b
    have hnot : ¬ (r1 < (0:ℚ)) := not_lt.mpr h0
    have hflt : ⌊r2 * (failureCodes.length : ℚ)⌋ < (failureCodes.length : ℤ) := by
      rw [Int.floor_lt]
      push_cast
      have : r2 * (failureCodes.length : ℚ) < 1 * (failureCodes.length : ℚ) := by
        apply mul_lt_mul_of_pos_right h2b
        rw [hlen]
        norm_num
      simpa using this
    have hne : failureCodes.length ≠ 0 := by rw [hlen]; norm_num
    have hi : (⌊r2 * (failureCodes.length : ℚ)⌋).toNat < failureCodes.length :=
      (Int.toNat_lt' hne).mpr hflt
    have hmem2 : failureCodes.getD (⌊r2 * (failureCodes.length : ℚ)⌋).toNat "" ∈ failureCodes := by
      rw [List.getD_eq_getElem _ _ hi]
      exact List.getElem_mem _
    refine ⟨(⌊r2 * (failureCodes.length : ℚ)⌋).toNat, hi, rfl, ?_, hmem2, hall _ hmem2⟩
    rw [simulateTransaction_valid hmem 0 r1 r2, if_neg hnot]

theorem upi_c6_witness :
    simulateTransaction "UPI Lite" 1 0 0 =
      .ok ⟨"UPI Lite", "00", "Approved or completed successfully", "Success",
        UPIStatus.SUCCESS, "No action needed."⟩
    ∧ simulateTransaction "UPI Lite" 0 (1/2) 0 =
      .ok ⟨"UPI Lite", "10", "PIN block error", "Technical", UPIStatus.REJECTED,
        "Invalid PIN; retry."⟩ := by
  constructor
  · exact upi_c6.1 "UPI Lite" 0 0 (by decide) le_rfl (by norm_num)
  · obtain ⟨i, hlen, hi, heq, hmem, hst⟩ :=
      upi_c6.2 "UPI Lite" (1/2) 0 (by decide) (by norm_num) le_rfl (by norm_num)
    rw [heq, hi]
    have hz : ((0:ℚ) * (failureCodes.length : ℚ)) = 0 := by ring
    rw [hz, Int.floor_zero]
    congr 1
